import Mathlib

/-!
Verification of `scripts/generate_stats.py` (KeyStroke repository).

The script reads a CSV inventory (columns `scope`, `size`, `mimeType`),
computes three aggregates (file counts by scope, total storage in GB,
photo count), and writes a JSON report.  We embed the script shallowly:

* a CSV data row is a `Row`; each field is a `Field` capturing the three
  states a `csv.DictReader` value can have: a string, Python `None`
  (row shorter than the header), or absent (column not in the header);
* the input file is `Option (List Row)`, `none` meaning the file does not
  exist (`FileNotFoundError` at `open`);
* Python exceptions that can escape are modelled with `Except PyErr`;
* Python `float` vs `int` results are modelled by `PyNum` (with the float
  value kept as an exact rational: the claims under study only concern
  sign, zeroness and the int/float distinction, all of which IEEE-754
  round-to-nearest division by `1e9` preserves for these magnitudes);
* the directory-creation and file-write step is modelled by a small
  filesystem state `FS`.
-/

namespace KeyStroke

/-- One `csv.DictReader` field value.  `missing` means the column is not in
the header at all (so `row.get(key, default)` yields the default);
`null` means the data row was shorter than the header, in which case
`DictReader` fills the value with Python `None`; `val s` is an ordinary
string value. -/
inductive Field where
  | missing
  | null
  | val (s : String)
deriving DecidableEq, Repr

/-- One CSV data row, restricted to the three columns the script reads. -/
structure Row where
  scope : Field
  size : Field
  mimeType : Field
deriving DecidableEq, Repr

/-- `row.get(key, default)`: the default is used only when the key is not in
the dict (column absent from the header); a `None` stored under the key is
returned as-is (`Option.none` here models Python `None`). -/
def Field.get : Field → String → Option String
  | .missing, d => some d
  | .null, _ => none
  | .val s, _ => some s

/-- Python exceptions that the script can raise or catch. -/
inductive PyErr where
  | attributeError
  | fileNotFoundError
  | fileExistsError
deriving DecidableEq, Repr

/-- A Python number as it appears in the JSON output: `json.dump` renders an
`int` without a decimal point and a `float` with one, so the two are
observably distinct even at value 0. -/
inductive PyNum where
  | int (i : ℤ)
  | float (q : ℚ)
deriving DecidableEq, Repr

deriving instance DecidableEq for Except

/-- Numeric value of a `PyNum`. -/
def PyNum.toRat : PyNum → ℚ
  | .int i => (i : ℚ)
  | .float q => q

/-- `s.strip('\x22')`: Python's `str.strip` removes ALL leading and trailing
occurrences of the given character, not just one layer. -/
def pyStripQuotes (s : String) : String :=
  ⟨((s.data.dropWhile (· = '"')).reverse.dropWhile (· = '"')).reverse⟩

/-- Python `str.lower`, character by character (ASCII case mapping; the
script only compares against the ASCII literals `public`/`private`). -/
def pyLower (s : String) : String :=
  ⟨s.data.map Char.toLower⟩

/-- Python `str.startswith`: the first string begins with the second. -/
def pyStartsWith (s p : String) : Bool :=
  s.data.take p.data.length = p.data

/-- Value of a nonempty all-digit character list, most significant first. -/
def digitsToNat (cs : List Char) : Option Nat :=
  if cs ≠ [] ∧ cs.all Char.isDigit then
    some (cs.foldl (fun a c => a * 10 + (c.toNat - 48)) 0)
  else none

/-- Python `int(s)`: surrounding whitespace is ignored, then an optional
sign followed by a nonempty digit string.  (Python additionally accepts
underscores between digits, which no claim exercises.)  `none` models a
`ValueError`. -/
def pyInt (s : String) : Option Int :=
  match (s.data.dropWhile Char.isWhitespace).reverse.dropWhile
      Char.isWhitespace |>.reverse with
  | '-' :: rest => (digitsToNat rest).map (fun n => -(n : Int))
  | '+' :: rest => (digitsToNat rest).map (fun n => (n : Int))
  | l => (digitsToNat l).map (fun n => (n : Int))

/-- The bytes one row contributes to the storage sum
(`generate_stats.py`, lines 40-47): `row.get('size', '0')`, then
`int(size_str.strip('\x22'))`; a `ValueError` (unparseable) or an
`AttributeError` (`size_str` is `None`) is caught and the row skipped. -/
def sizeContribution (f : Field) : Int :=
  match f.get "0" with
  | none => 0
  | some s =>
    match pyInt (pyStripQuotes s) with
    | none => 0
    | some n => n

/-- The accumulation loop of `count_total_storage`. -/
def storageLoop : List Row → Int → Int
  | [], acc => acc
  | r :: rs, acc => storageLoop rs (acc + sizeContribution r.size)

/-- `count_total_storage` (lines 33-50): on `FileNotFoundError` returns the
Python int `0`; otherwise returns the float `total_storage / 1e9`. -/
def count_total_storage : Option (List Row) → PyNum
  | none => .int 0
  | some rows => .float ((storageLoop rows 0 : ℚ) / 10 ^ 9)

/-- The accumulation loop of `count_files_by_scope`: `row.get('scope', '')`
followed by `.lower()` raises an uncaught `AttributeError` when the value
is `None`; the counter for `'public'`/`'private'` is incremented when the
lowered value is one of the two dict keys. -/
def scopeLoop : List Row → Nat → Nat → Except PyErr (Nat × Nat)
  | [], pub, priv => .ok (pub, priv)
  | r :: rs, pub, priv =>
    match r.scope.get "" with
    | none => .error .attributeError
    | some s =>
      let sc := pyLower s
      if sc = "public" then scopeLoop rs (pub + 1) priv
      else if sc = "private" then scopeLoop rs pub (priv + 1)
      else scopeLoop rs pub priv

/-- `count_files_by_scope` (lines 17-31).  The result models the Python dict
as an association list in insertion order: the success path builds
`{'public': _, 'private': _}` and then appends `'total'`; the
`FileNotFoundError` path returns the literal `{'total': 0, 'public': 0,
'private': 0}` (note the different key order). -/
def count_files_by_scope : Option (List Row) → Except PyErr (List (String × Nat))
  | none => .ok [("total", 0), ("public", 0), ("private", 0)]
  | some rows =>
    (scopeLoop rows 0 0).map
      (fun pc => [("public", pc.1), ("private", pc.2), ("total", pc.1 + pc.2)])

/-- The accumulation loop of `count_photos`: `row.get('mimeType', '')`
followed by `.startswith('image/')`, which raises an uncaught
`AttributeError` when the value is `None`. -/
def photoLoop : List Row → Nat → Except PyErr Nat
  | [], acc => .ok acc
  | r :: rs, acc =>
    match r.mimeType.get "" with
    | none => .error .attributeError
    | some s =>
      if pyStartsWith s "image/" then photoLoop rs (acc + 1)
      else photoLoop rs acc

/-- `count_photos` (lines 52-63). -/
def count_photos : Option (List Row) → Except PyErr Nat
  | none => .ok 0
  | some rows => photoLoop rows 0

/-- The stats dict assembled by `generate_stats` (lines 79-84), keys in
insertion order `timestamp`, `files`, `total_storage`, `photos`. -/
structure StatsReport where
  timestamp : String
  files : List (String × Nat)
  total_storage : PyNum
  photos : Nat
deriving DecidableEq, Repr

/-- The pure core of `generate_stats` (lines 70-84): run the three
aggregations in program order over the same input and assemble the report.
The timestamp (wall clock) is a parameter. -/
def generate_stats (csv : Option (List Row)) (ts : String) :
    Except PyErr StatsReport := do
  let fileCounts ← count_files_by_scope csv
  let totalStorage := count_total_storage csv
  let photos ← count_photos csv
  .ok ⟨ts, fileCounts, totalStorage, photos⟩

/-- A filesystem state: the set of existing directories and the files with
their contents.  Paths are component lists; file contents are kept
abstractly as a `StatsReport` (the write serializes one report, and the
serialization is a function of the report). -/
structure FS where
  dirs : List (List String)
  files : List (List String × StatsReport)

/-- `Path.mkdir(exist_ok=True)` (line 88): succeeds without change if the
directory already exists; raises `FileExistsError` if the path exists as a
file; raises `FileNotFoundError` if the parent directory is missing
(`parents=True` is NOT passed, so missing parents are not created);
otherwise creates exactly the one directory. -/
def FS.mkdirExistOk (fs : FS) (p : List String) : Except PyErr FS :=
  if p ∈ fs.dirs then .ok fs
  else if p ∈ fs.files.map Prod.fst then .error .fileExistsError
  else if p.dropLast ∈ fs.dirs then .ok ⟨p :: fs.dirs, fs.files⟩
  else .error .fileNotFoundError

/-- `open(path, 'w')` + `json.dump` (lines 90-91): requires the parent
directory to exist and replaces any previous content of the file
completely. -/
def FS.writeFile (fs : FS) (p : List String) (c : StatsReport) :
    Except PyErr FS :=
  if p.dropLast ∈ fs.dirs then
    .ok ⟨fs.dirs, (p, c) :: fs.files.filter (fun kv => kv.1 ≠ p)⟩
  else .error .fileNotFoundError

/-- Content of a file, if present. -/
def FS.read (fs : FS) (p : List String) : Option StatsReport :=
  (fs.files.find? (fun kv => kv.1 = p)).map Prod.snd

/-- The effectful tail of `generate_stats` (lines 87-91), after the report
has been assembled: make `<base_dir>/_data` (exist_ok) and write
`<base_dir>/_data/autodrive_stats.json`. -/
def run_generate_stats (fs : FS) (baseDir : List String)
    (csv : Option (List Row)) (ts : String) : Except PyErr FS := do
  let stats ← generate_stats csv ts
  let fs' ← fs.mkdirExistOk (baseDir ++ ["_data"])
  fs'.writeFile (baseDir ++ ["_data", "autodrive_stats.json"]) stats

/-- Render a `PyNum` the way `json.dump` distinguishes the two types: an
`int` prints without a decimal point, a `float` with one.  The decimal
rendering of the float's digits is abstracted by the supplied `floatRepr`
(IEEE-754 shortest-repr printing), since the claims only need that the
output is a function of the number. -/
def PyNum.render (floatRepr : ℚ → String) : PyNum → String
  | .int i => toString i
  | .float q => floatRepr q

/-- `json.dump(stats, f, indent=2)` on the stats dict: 2-space indentation,
keys in dict insertion order. -/
def serialize_stats (floatRepr : ℚ → String) (r : StatsReport) : String :=
  "\x7b\n  \"timestamp\": \"" ++ r.timestamp ++ "\",\n  \"files\": \x7b\n"
    ++ String.intercalate ",\n"
      (r.files.map (fun kv => "    \"" ++ kv.1 ++ "\": " ++ toString kv.2))
    ++ "\n  \x7d,\n  \"total_storage\": " ++ r.total_storage.render floatRepr
    ++ ",\n  \"photos\": " ++ toString r.photos ++ "\n\x7d"

/-- Modelled from the spec (claim C4 words the size normalisation as
stripping ONE layer of surrounding double quotes): remove exactly one
leading and one trailing quote when both are present.  This is the
spec's reading, to be compared against the source's `str.strip('\x22')`
(which strips every leading and trailing quote). -/
def stripOneLayer (s : String) : String :=
  match s.data with
  | '"' :: (c :: cs) =>
    if (c :: cs).getLast (by simp) = '"' then ⟨(c :: cs).dropLast⟩ else s
  | _ => s

/-- The bytes one row would contribute to the storage sum under the claim's
one-layer reading of the quote stripping. -/
def sizeContributionOneLayer (f : Field) : Int :=
  match f.get "0" with
  | none => 0
  | some s =>
    match pyInt (stripOneLayer s) with
    | none => 0
    | some n => n

/-- Whether a row is counted as a photo: its `mimeType` value (the `get`
default `""` if the column is absent) starts with `image/`.  Only
meaningful for rows whose `mimeType` is not Python `None`. -/
def isPhoto (r : Row) : Bool :=
  match r.mimeType.get "" with
  | none => false
  | some s => pyStartsWith s "image/"

/-- Whether a row's `scope` lower-cases to the given string.  Only
meaningful for rows whose `scope` is not Python `None`. -/
def scopeIs (t : String) (r : Row) : Bool :=
  match r.scope.get "" with
  | none => false
  | some s => pyLower s = t

/-! ### Helper lemmas -/

/-- The scope loop, on rows none of whose `scope` values is Python `None`,
adds to its accumulators the number of rows lower-casing to `public`
resp. `private`. -/
theorem scopeLoop_spec (rows : List Row) (h : ∀ r ∈ rows, r.scope ≠ .null)
    (pub priv : Nat) :
    scopeLoop rows pub priv =
      .ok (pub + rows.countP (scopeIs "public"),
        priv + rows.countP (scopeIs "private")) := by
  induction rows generalizing pub priv with
  | nil => simp [scopeLoop]
  | cons r rs ih =>
    have hr : r.scope ≠ .null := h r (by simp)
    have hrs : ∀ x ∈ rs, x.scope ≠ .null := fun x hx => h x (by simp [hx])
    match hs : r.scope with
    | .null => exact absurd hs hr
    | .missing =>
      have h1 : scopeIs "public" r = false := by simp [scopeIs, hs, Field.get, pyLower]
      have h2 : scopeIs "private" r = false := by simp [scopeIs, hs, Field.get, pyLower]
      simp [scopeLoop, hs, Field.get, ih hrs, List.countP_cons, h1, h2, pyLower]
    | .val s =>
      by_cases hp : pyLower s = "public"
      · have h1 : scopeIs "public" r = true := by simp [scopeIs, hs, Field.get, hp]
        have h2 : scopeIs "private" r = false := by
          simp [scopeIs, hs, Field.get, hp]
        simp [scopeLoop, hs, Field.get, hp, ih hrs, List.countP_cons, h1, h2,
          Nat.add_assoc, Nat.add_comm 1]
      · by_cases hq : pyLower s = "private"
        · have h1 : scopeIs "public" r = false := by simp [scopeIs, hs, Field.get, hp]
          have h2 : scopeIs "private" r = true := by simp [scopeIs, hs, Field.get, hq]
          simp [scopeLoop, hs, Field.get, hp, hq, ih hrs, List.countP_cons, h1, h2,
            Nat.add_assoc, Nat.add_comm 1]
        · have h1 : scopeIs "public" r = false := by simp [scopeIs, hs, Field.get, hp]
          have h2 : scopeIs "private" r = false := by simp [scopeIs, hs, Field.get, hq]
          simp [scopeLoop, hs, Field.get, hp, hq, ih hrs, List.countP_cons, h1, h2]

/-- The storage loop adds the per-row size contributions to its
accumulator. -/
theorem storageLoop_sum (rows : List Row) (acc : Int) :
    storageLoop rows acc = acc + (rows.map (fun r => sizeContribution r.size)).sum := by
  induction rows generalizing acc with
  | nil => simp [storageLoop]
  | cons r rs ih => simp [storageLoop, ih, Int.add_assoc]

/-- The photo loop, on rows none of whose `mimeType` values is Python
`None`, adds to its accumulator the number of rows satisfying `isPhoto`. -/
theorem photoLoop_spec (rows : List Row) (h : ∀ r ∈ rows, r.mimeType ≠ .null)
    (acc : Nat) :
    photoLoop rows acc = .ok (acc + rows.countP isPhoto) := by
  induction rows generalizing acc with
  | nil => simp [photoLoop]
  | cons r rs ih =>
    have hr : r.mimeType ≠ .null := h r (by simp)
    have hrs : ∀ x ∈ rs, x.mimeType ≠ .null := fun x hx => h x (by simp [hx])
    match hm : r.mimeType with
    | .null => exact absurd hm hr
    | .missing =>
      have h1 : isPhoto r = false := by simp [isPhoto, hm, Field.get, pyStartsWith]
      simp [photoLoop, hm, Field.get, ih hrs, List.countP_cons, h1, pyStartsWith]
    | .val s =>
      by_cases hp : pyStartsWith s "image/" = true
      · have h1 : isPhoto r = true := by simp [isPhoto, hm, Field.get, hp]
        simp [photoLoop, hm, Field.get, hp, ih hrs, List.countP_cons, h1,
          Nat.add_assoc, Nat.add_comm 1]
      · have h1 : isPhoto r = false := by simp [isPhoto, hm, Field.get, hp]
        simp [photoLoop, hm, Field.get, hp, ih hrs, List.countP_cons, h1]

/-- Rewriting the `scope` field of every row does not change the storage
loop. -/
theorem storageLoop_scope_irrel (g : Row → Field) (rows : List Row) (acc : Int) :
    storageLoop (rows.map (fun r => ⟨g r, r.size, r.mimeType⟩)) acc =
      storageLoop rows acc := by
  induction rows generalizing acc with
  | nil => rfl
  | cons r rs ih => simp [storageLoop, ih]

/-- Rewriting the `scope` field of every row does not change the photo
loop. -/
theorem photoLoop_scope_irrel (g : Row → Field) (rows : List Row) (acc : Nat) :
    photoLoop (rows.map (fun r => ⟨g r, r.size, r.mimeType⟩)) acc =
      photoLoop rows acc := by
  induction rows generalizing acc with
  | nil => rfl
  | cons r rs ih =>
    match hm : r.mimeType with
    | .null => simp [photoLoop, hm, Field.get]
    | .missing => simp [photoLoop, hm, Field.get, ih]
    | .val s =>
      by_cases hp : pyStartsWith s "image/" = true <;>
        simp [photoLoop, hm, Field.get, hp, ih]

/-- Dropping the last element of `l ++ [a, b]` leaves `l ++ [a]`. -/
theorem dropLast_append_pair (l : List String) (a b : String) :
    (l ++ [a, b]).dropLast = l ++ [a] := by
  induction l with
  | nil => rfl
  | cons x xs ih => simp [List.dropLast, ih]

/-- Dropping the last element of `l ++ [a]` leaves `l`. -/
theorem dropLast_append_single (l : List String) (a : String) :
    (l ++ [a]).dropLast = l := by
  induction l with
  | nil => rfl
  | cons x xs ih => simp [List.dropLast, ih]

/-- Once the report is assembled, `run_generate_stats` is the mkdir followed
by the file write. -/
theorem run_generate_stats_eq (fs : FS) (baseDir : List String)
    (csv : Option (List Row)) (ts : String) (r : StatsReport)
    (hgen : generate_stats csv ts = .ok r) :
    run_generate_stats fs baseDir csv ts =
      match fs.mkdirExistOk (baseDir ++ ["_data"]) with
      | .error e => .error e
      | .ok fs2 =>
        fs2.writeFile (baseDir ++ ["_data", "autodrive_stats.json"]) r := by
  unfold run_generate_stats
  rw [hgen]
  cases fs.mkdirExistOk (baseDir ++ ["_data"]) <;> rfl

/-- If the report assembly succeeds, the base directory exists, and
`_data` is not occupied by a file, then the effectful tail succeeds: the
output directory exists afterwards and the output file holds exactly the
new report, whatever was there before. -/
theorem run_generate_stats_ok (fs : FS) (baseDir : List String)
    (csv : Option (List Row)) (ts : String) (r : StatsReport)
    (hgen : generate_stats csv ts = .ok r)
    (hbase : baseDir ∈ fs.dirs)
    (hfile : (baseDir ++ ["_data"]) ∉ fs.files.map Prod.fst) :
    ∃ fs', run_generate_stats fs baseDir csv ts = .ok fs'
      ∧ (baseDir ++ ["_data"]) ∈ fs'.dirs
      ∧ fs'.read (baseDir ++ ["_data", "autodrive_stats.json"]) = some r := by
  have hdrop : (baseDir ++ ["_data", "autodrive_stats.json"]).dropLast =
      baseDir ++ ["_data"] := dropLast_append_pair baseDir _ _
  rw [run_generate_stats_eq fs baseDir csv ts r hgen]
  by_cases hd : (baseDir ++ ["_data"]) ∈ fs.dirs
  · have hmk : fs.mkdirExistOk (baseDir ++ ["_data"]) = .ok fs := by
      simp [FS.mkdirExistOk, hd]
    rw [hmk]
    refine ⟨⟨fs.dirs, (baseDir ++ ["_data", "autodrive_stats.json"], r) ::
      fs.files.filter (fun kv => kv.1 ≠ baseDir ++ ["_data", "autodrive_stats.json"])⟩,
      ?_, by simpa using hd, by simp [FS.read]⟩
    simp [FS.writeFile, hdrop, hd]
  · have hparent : (baseDir ++ ["_data"]).dropLast ∈ fs.dirs := by
      rw [dropLast_append_single]
      exact hbase
    have hmk : fs.mkdirExistOk (baseDir ++ ["_data"]) =
        .ok ⟨(baseDir ++ ["_data"]) :: fs.dirs, fs.files⟩ := by
      simp [FS.mkdirExistOk, hd, hfile, hparent, hbase]
    rw [hmk]
    refine ⟨⟨(baseDir ++ ["_data"]) :: fs.dirs,
      (baseDir ++ ["_data", "autodrive_stats.json"], r) ::
      fs.files.filter (fun kv => kv.1 ≠ baseDir ++ ["_data", "autodrive_stats.json"])⟩,
      ?_, by simp, by simp [FS.read]⟩
    simp [FS.writeFile, hdrop]

/-! ### Claims -/

/-- C1: for every input CSV (including a missing input file), whenever the
scope count succeeds the resulting `files` mapping has `public` and
`private` entries and its `total` entry equals their sum. -/
theorem c1_files_total_invariant (csv : Option (List Row))
    (c : List (String × Nat)) (h : count_files_by_scope csv = .ok c) :
    c.lookup "total" =
      some ((c.lookup "public").getD 0 + (c.lookup "private").getD 0)
    ∧ (c.lookup "public").isSome ∧ (c.lookup "private").isSome := by
  cases csv with
  | none =>
    simp only [count_files_by_scope, Except.ok.injEq] at h
    subst h
    decide
  | some rows =>
    simp only [count_files_by_scope] at h
    cases hs : scopeLoop rows 0 0 with
    | error e => rw [hs] at h; exact absurd h (by simp [Except.map])
    | ok pc =>
      rw [hs] at h
      simp only [Except.map, Except.ok.injEq] at h
      subst h
      simp [List.lookup]

/-- C1 witness: the invariant instantiated at the missing-file input. -/
theorem c1_files_total_invariant_witness :
    List.lookup "total" [("total", 0), ("public", 0), ("private", 0)] =
      some ((List.lookup "public"
          [("total", 0), ("public", 0), ("private", 0)]).getD 0 +
        (List.lookup "private"
          [("total", 0), ("public", 0), ("private", 0)]).getD 0)
    ∧ (List.lookup "public"
        [("total", 0), ("public", 0), ("private", 0)]).isSome
    ∧ (List.lookup "private"
        [("total", 0), ("public", 0), ("private", 0)]).isSome :=
  c1_files_total_invariant none _ rfl

/-- C2: when the input CSV is missing, every aggregation returns its
zero-valued default, the run succeeds, and the output file is written with
the zero report plus the given timestamp. -/
theorem c2_missing_file_defaults (ts : String) :
    count_files_by_scope none = .ok [("total", 0), ("public", 0), ("private", 0)]
    ∧ count_total_storage none = .int 0
    ∧ count_photos none = .ok 0
    ∧ generate_stats none ts =
        .ok ⟨ts, [("total", 0), ("public", 0), ("private", 0)], .int 0, 0⟩
    ∧ ∀ fs baseDir, baseDir ∈ fs.dirs →
        (baseDir ++ ["_data"]) ∉ fs.files.map Prod.fst →
        ∃ fs', run_generate_stats fs baseDir none ts = .ok fs'
          ∧ fs'.read (baseDir ++ ["_data", "autodrive_stats.json"]) =
              some ⟨ts, [("total", 0), ("public", 0), ("private", 0)], .int 0, 0⟩ := by
  refine ⟨rfl, rfl, rfl, rfl, fun fs baseDir hb hf => ?_⟩
  obtain ⟨fs', h1, _, h3⟩ := run_generate_stats_ok fs baseDir none ts _ rfl hb hf
  exact ⟨fs', h1, h3⟩

/-- C2 witness: a concrete run against a filesystem holding only the base
directory. -/
theorem c2_missing_file_defaults_witness :
    count_total_storage none = .int 0
    ∧ ∃ fs', run_generate_stats ⟨[["b"]], []⟩ ["b"] none "T" = .ok fs'
        ∧ fs'.read (["b"] ++ ["_data", "autodrive_stats.json"]) =
            some ⟨"T", [("total", 0), ("public", 0), ("private", 0)], .int 0, 0⟩ :=
  ⟨(c2_missing_file_defaults "T").2.1,
    (c2_missing_file_defaults "T").2.2.2.2 ⟨[["b"]], []⟩ ["b"] (by simp) (by simp)⟩

/-- C3 counterexample: a row whose size parses to `-5` makes
`total_storage` negative, and a present file whose only size is the
parseable `"0"` yields `total_storage = 0`; both contradict
"`total_storage >= 0`; equals 0 exactly when the input file is absent or
contains no parseable size values". -/
theorem c3_counterexample :
    (count_total_storage (some [⟨.missing, .val "-5", .missing⟩])).toRat < 0
    ∧ count_total_storage (some [⟨.missing, .val "0", .missing⟩]) = .float 0
    ∧ pyInt (pyStripQuotes "0") = some 0 := by
  refine ⟨?_, ?_, by decide⟩
  · have h : storageLoop [⟨.missing, .val "-5", .missing⟩] 0 = -5 := by decide
    simp only [count_total_storage, h, PyNum.toRat]
    norm_num
  · have h : storageLoop [⟨.missing, .val "0", .missing⟩] 0 = 0 := by decide
    simp [count_total_storage, h]

/-- C3 amended: if every parsed size contribution is non-negative, then
`total_storage >= 0`, and it equals 0 exactly when the parsed size
contributions sum to 0 (in particular when the file is absent or no size
parses). -/
theorem c3_storage_nonneg (csv : Option (List Row))
    (h : ∀ r ∈ csv.getD [], 0 ≤ sizeContribution r.size) :
    0 ≤ (count_total_storage csv).toRat
    ∧ ((count_total_storage csv).toRat = 0 ↔
        ((csv.getD []).map (fun r => sizeContribution r.size)).sum = 0) := by
  cases csv with
  | none => simp [count_total_storage, PyNum.toRat]
  | some rows =>
    have hsum : storageLoop rows 0 =
        (rows.map (fun r => sizeContribution r.size)).sum := by
      simpa using storageLoop_sum rows 0
    have hnn : 0 ≤ (rows.map (fun r => sizeContribution r.size)).sum := by
      apply List.sum_nonneg
      intro x hx
      obtain ⟨r, hr, rfl⟩ := List.mem_map.mp hx
      exact h r hr
    constructor
    · simp only [count_total_storage, PyNum.toRat, hsum]
      exact div_nonneg (by exact_mod_cast hnn) (by norm_num)
    · simp only [count_total_storage, PyNum.toRat, hsum, div_eq_zero_iff]
      constructor
      · rintro (h0 | h0)
        · exact_mod_cast h0
        · norm_num at h0
      · intro h0
        left
        exact_mod_cast h0

/-- C3 witness: the amended statement at a single row of size `"7"`. -/
theorem c3_storage_nonneg_witness :
    0 ≤ (count_total_storage (some [⟨.missing, .val "7", .missing⟩])).toRat
    ∧ ((count_total_storage (some [⟨.missing, .val "7", .missing⟩])).toRat = 0 ↔
        (([⟨.missing, .val "7", .missing⟩] : List Row).map
          (fun r => sizeContribution r.size)).sum = 0) :=
  c3_storage_nonneg (some [⟨.missing, .val "7", .missing⟩]) (by decide)

/-- C4 counterexample: on the five-character size value quote-quote-5-quote-quote,
the code (`str.strip('\x22')`, which removes every leading and trailing
quote) parses 5 and adds it, while the claim's "strip one layer of
surrounding quotes" leaves a quoted string that fails to parse and would
contribute nothing. -/
theorem c4_counterexample :
    sizeContribution (.val "\"\"5\"\"") = 5
    ∧ sizeContributionOneLayer (.val "\"\"5\"\"") = 0
    ∧ count_total_storage (some [⟨.missing, .val "\"\"5\"\"", .missing⟩]) =
        .float (5 / 10 ^ 9) := by
  refine ⟨by decide, by decide, ?_⟩
  have h : storageLoop [⟨.missing, .val "\"\"5\"\"", .missing⟩] 0 = 5 := by decide
  simp only [count_total_storage, h]
  norm_num

/-- C4 amended: each row's size field is read as text with default `"0"`,
ALL surrounding literal double quotes are stripped, and the result is
parsed as an integer; rows whose size is missing from the row (`None`),
empty, or unparseable contribute nothing and cause no crash, and
quote-digit-quote parses to the digit's value. -/
theorem c4_size_parsing :
    (∀ rows, count_total_storage (some rows) =
      .float (((rows.map (fun r => sizeContribution r.size)).sum : ℚ) / 10 ^ 9))
    ∧ sizeContribution (.val "\"5\"") = 5
    ∧ sizeContribution (.val "") = 0
    ∧ sizeContribution (.val "abc") = 0
    ∧ sizeContribution .missing = 0
    ∧ sizeContribution .null = 0 := by
  refine ⟨fun rows => ?_, by decide, by decide, by decide, by decide, by decide⟩
  have hsum : storageLoop rows 0 =
      (rows.map (fun r => sizeContribution r.size)).sum := by
    simpa using storageLoop_sum rows 0
  simp only [count_total_storage, hsum]

/-- C5: the scope counter lower-cases the scope value and counts exactly
the rows lowering to `public` resp. `private` (any other value, including
empty or a column absent from the header, is skipped), and the storage and
photo counters are unaffected by the scope field. -/
theorem c5_scope_counting (rows : List Row) (h : ∀ r ∈ rows, r.scope ≠ .null) :
    count_files_by_scope (some rows) =
      .ok [("public", rows.countP (scopeIs "public")),
        ("private", rows.countP (scopeIs "private")),
        ("total", rows.countP (scopeIs "public") + rows.countP (scopeIs "private"))]
    ∧ ∀ g : Row → Field,
        count_total_storage (some (rows.map (fun r => ⟨g r, r.size, r.mimeType⟩))) =
          count_total_storage (some rows)
        ∧ count_photos (some (rows.map (fun r => ⟨g r, r.size, r.mimeType⟩))) =
            count_photos (some rows) := by
  refine ⟨?_, fun g => ⟨?_, ?_⟩⟩
  · simp only [count_files_by_scope]
    rw [scopeLoop_spec rows h 0 0]
    simp [Except.map]
  · simp only [count_total_storage, storageLoop_scope_irrel]
  · simp only [count_photos, photoLoop_scope_irrel]

/-- C5 witness: a row with scope `PRIVATE` counts under `private`. -/
theorem c5_scope_counting_witness :
    count_files_by_scope (some [⟨.val "PRIVATE", .missing, .missing⟩]) =
      .ok [("public", 0), ("private", 1), ("total", 1)] :=
  ((c5_scope_counting [⟨.val "PRIVATE", .missing, .missing⟩] (by decide)).1).trans
    (by decide)

/-- C6 counterexample: with the parent (base) directory absent, the run
raises `FileNotFoundError` instead of creating the missing parent —
`mkdir` is called with `exist_ok=True` but without `parents=True`, so the
claim's "creating it including any missing parent directories" is false of
the code. -/
theorem c6_counterexample :
    run_generate_stats ⟨[], []⟩ ["base"] none "T" = .error .fileNotFoundError := by
  rfl

/-- C6 amended: when the base directory exists (as it does in every real
run, since the script resides under it) and `_data` is not occupied by a
file, the run succeeds, `<base_dir>/_data` exists afterwards (created if
absent, no error if already present), and the output file holds exactly
the new report, whatever its previous content — but missing parent
directories are NOT created. -/
theorem c6_output_write (fs : FS) (baseDir : List String)
    (csv : Option (List Row)) (ts : String) (r : StatsReport)
    (hgen : generate_stats csv ts = .ok r)
    (hbase : baseDir ∈ fs.dirs)
    (hfile : (baseDir ++ ["_data"]) ∉ fs.files.map Prod.fst) :
    ∃ fs', run_generate_stats fs baseDir csv ts = .ok fs'
      ∧ (baseDir ++ ["_data"]) ∈ fs'.dirs
      ∧ fs'.read (baseDir ++ ["_data", "autodrive_stats.json"]) = some r :=
  run_generate_stats_ok fs baseDir csv ts r hgen hbase hfile

/-- C6 witness: a run over a filesystem whose output file already holds a
different report; the file afterwards holds exactly the new report. -/
theorem c6_output_write_witness :
    ∃ fs', run_generate_stats
        ⟨[["b"], ["b", "_data"]],
          [(["b", "_data", "autodrive_stats.json"], ⟨"OLD", [], .int 9, 9⟩)]⟩
        ["b"] none "T" = .ok fs'
      ∧ (["b"] ++ ["_data"]) ∈ fs'.dirs
      ∧ fs'.read (["b"] ++ ["_data", "autodrive_stats.json"]) =
          some ⟨"T", [("total", 0), ("public", 0), ("private", 0)], .int 0, 0⟩ :=
  c6_output_write _ ["b"] none "T" _ rfl (by decide) (by decide)

/-- C7: on any input whose rows all carry a mimeType value (possibly via
the empty-string default for an absent column), the photo count equals the
number of rows whose mimeType starts with `image/`, hence is at most the
number of rows. -/
theorem c7_photo_count (csv : Option (List Row))
    (h : ∀ r ∈ csv.getD [], r.mimeType ≠ .null) :
    count_photos csv = .ok ((csv.getD []).countP isPhoto)
    ∧ (csv.getD []).countP isPhoto ≤ (csv.getD []).length := by
  cases csv with
  | none => exact ⟨rfl, Nat.le_refl 0⟩
  | some rows =>
    refine ⟨?_, List.countP_le_length _⟩
    simp only [count_photos, Option.getD]
    rw [photoLoop_spec rows h 0]
    simp

/-- C7 witness: two rows, one `image/png` and one `application/pdf`, give
photo count 1. -/
theorem c7_photo_count_witness :
    count_photos (some [⟨.missing, .missing, .val "image/png"⟩,
      ⟨.missing, .missing, .val "application/pdf"⟩]) = .ok 1 :=
  ((c7_photo_count (some [⟨.missing, .missing, .val "image/png"⟩,
    ⟨.missing, .missing, .val "application/pdf"⟩]) (by decide)).1).trans (by decide)

/-- `generate_stats` written as nested case analysis over its two fallible
aggregation calls. -/
theorem generate_stats_eq (csv : Option (List Row)) (ts : String) :
    generate_stats csv ts =
      match count_files_by_scope csv with
      | .error e => .error e
      | .ok c =>
        match count_photos csv with
        | .error e => .error e
        | .ok p => .ok ⟨ts, c, count_total_storage csv, p⟩ := by
  unfold generate_stats
  cases count_files_by_scope csv <;> cases count_photos csv <;> rfl

/-- If any row's `scope` value is Python `None`, the scope loop raises
`AttributeError` (the only uncaught exception it can raise). -/
theorem scopeLoop_null_error (rows : List Row)
    (h : ∃ r ∈ rows, r.scope = .null) (pub priv : Nat) :
    scopeLoop rows pub priv = .error .attributeError := by
  induction rows generalizing pub priv with
  | nil => simp at h
  | cons x xs ih =>
    obtain ⟨r, hr, hnull⟩ := h
    rcases List.mem_cons.mp hr with rfl | hmem
    · simp [scopeLoop, hnull, Field.get]
    · match hxs : x.scope with
      | .null => simp [scopeLoop, hxs, Field.get]
      | .missing =>
        simp only [scopeLoop, hxs, Field.get, pyLower]
        exact ih ⟨r, hmem, hnull⟩ _ _
      | .val s =>
        by_cases hp : pyLower s = "public"
        · simp only [scopeLoop, hxs, Field.get, hp, if_true]
          exact ih ⟨r, hmem, hnull⟩ _ _
        · by_cases hq : pyLower s = "private"
          · simp only [scopeLoop, hxs, Field.get, hp, hq, if_false, if_true]
            exact ih ⟨r, hmem, hnull⟩ _ _
          · simp only [scopeLoop, hxs, Field.get, hp, hq, if_false]
            exact ih ⟨r, hmem, hnull⟩ _ _

/-- C8: the aggregation is deterministic in the input rows — two runs over
the same input agree on every report field except the timestamp, and their
serialized outputs are byte-identical once a common timestamp is
substituted. -/
theorem c8_idempotent (fr : ℚ → String) (csv : Option (List Row))
    (t₁ t₂ t : String) (r₁ r₂ : StatsReport)
    (h₁ : generate_stats csv t₁ = .ok r₁)
    (h₂ : generate_stats csv t₂ = .ok r₂) :
    r₁.files = r₂.files ∧ r₁.total_storage = r₂.total_storage
    ∧ r₁.photos = r₂.photos
    ∧ serialize_stats fr { r₁ with timestamp := t } =
        serialize_stats fr { r₂ with timestamp := t } := by
  rw [generate_stats_eq] at h₁ h₂
  cases hc : count_files_by_scope csv with
  | error e => rw [hc] at h₁; simp at h₁
  | ok c =>
    rw [hc] at h₁ h₂
    cases hp : count_photos csv with
    | error e => rw [hp] at h₁; simp at h₁
    | ok p =>
      rw [hp] at h₁ h₂
      simp only at h₁ h₂
      cases h₁
      cases h₂
      exact ⟨rfl, rfl, rfl, rfl⟩

/-- C8 witness: two missing-file runs at timestamps `a` and `b`, compared
after substituting the common timestamp `c`. -/
theorem c8_idempotent_witness :
    serialize_stats (fun _ => "x")
        ⟨"c", [("total", 0), ("public", 0), ("private", 0)], .int 0, 0⟩ =
      serialize_stats (fun _ => "x")
        ⟨"c", [("total", 0), ("public", 0), ("private", 0)], .int 0, 0⟩ :=
  (c8_idempotent (fun _ => "x") none "a" "b" "c" _ _ rfl rfl).2.2.2

/-- C9: the type of `total_storage` differs by branch — a missing file
yields the Python int `0`, while a present file always yields a float
(`0.0` when nothing parses), and the two are distinct JSON-observable
values. -/
theorem c9_storage_branch_type :
    count_total_storage none = .int 0
    ∧ (∀ rows, ∃ q, count_total_storage (some rows) = .float q)
    ∧ count_total_storage (some [⟨.missing, .val "abc", .missing⟩]) = .float 0
    ∧ PyNum.int 0 ≠ PyNum.float 0 := by
  refine ⟨rfl, fun rows => ⟨_, rfl⟩, ?_, by decide⟩
  have h : storageLoop [⟨.missing, .val "abc", .missing⟩] 0 = 0 := by decide
  simp [count_total_storage, h]

/-- C10: a row whose `scope` value is Python `None` (short data row) makes
the scope counter raise an uncaught `AttributeError`, while the storage
counter never raises and skips a row whose `size` value is `None`. -/
theorem c10_null_scope_crash (rows : List Row)
    (h : ∃ r ∈ rows, r.scope = .null) :
    count_files_by_scope (some rows) = .error .attributeError
    ∧ (∃ q, count_total_storage (some rows) = .float q)
    ∧ ∀ (r : Row) (rs : List Row), r.size = .null →
        storageLoop (r :: rs) 0 = storageLoop rs 0 := by
  refine ⟨?_, ⟨_, rfl⟩, fun r rs hr => ?_⟩
  · simp only [count_files_by_scope]
    rw [scopeLoop_null_error rows h 0 0]
    rfl
  · simp [storageLoop, sizeContribution, hr, Field.get]

/-- C10 witness: the all-`None` row (a data row with no fields at all)
crashes the scope counter. -/
theorem c10_null_scope_crash_witness :
    count_files_by_scope (some [⟨.null, .null, .null⟩]) = .error .attributeError :=
  (c10_null_scope_crash [⟨.null, .null, .null⟩] (by decide)).1

end KeyStroke
